import Mathlib

/-!
# Verification of the shared site script (`src/js/main.js`)

Shallow embedding of the shared site functionality: persistent dark mode
and the bilingual (en/jp) content toggle.

Modelling conventions:
* The DOM is modelled by `SiteState`: the list of page elements (each with an
  optional `data-i18n` attribute and its `innerHTML` string, kept as raw
  markup, never escaped), the `dark` class on `document.body`, the text of the
  two optional buttons (`#dark-mode-btn`, `#lang-toggle-btn`), and the list of
  payloads of `langchange` events dispatched on the document so far.
* `localStorage` is modelled by `Store`: the values of the `darkMode` and
  `lang` keys plus a flag `ok`; when `ok = false` every `getItem`/`setItem`
  raises, modelling disabled or full storage.  Raising is an `Except.error`;
  the `try/catch` blocks of the source become `match`es on it.
* Functions whose JS bodies contain statements outside any `try` that could
  in principle raise are given the type `Except Unit _`; that they always
  return `Except.ok` is proved, not assumed.
-/

namespace SiteModel

/-- One value of the `translations` object: a record with the display string
for each of the two locales (strings may embed inline markup). -/
structure TransEntry where
  en : String
  jp : String
deriving DecidableEq, Repr

/-- Entries 1–24 of the `translations` constant (split only to keep elaboration light; `translations` below is their concatenation in source order). -/
def translationsPart1 : List (String × TransEntry) := [
  ("nav-portfolio", ⟨"Portfolio", "ポートフォリオ"⟩),
  ("nav-philosophy", ⟨"Philosophy", "投資哲学"⟩),
  ("nav-trades", ⟨"Trades", "取引履歴"⟩),
  ("nav-research", ⟨"Research", "リサーチ"⟩),
  ("nav-about", ⟨"About", "プロフィール"⟩),
  ("portfolio-label", ⟨"Portfolio Value", "運用総額"⟩),
  ("stat-ytd-label", ⟨"YTD Return", "年初来リターン"⟩),
  ("stat-sharpe-label", ⟨"Sharpe Ratio", "シャープレシオ"⟩),
  ("stat-sharpe-sub", ⟨"Annualized", "年率換算"⟩),
  ("stat-drawdown-label", ⟨"Max Drawdown", "最大ドローダウン"⟩),
  ("stat-positions-label", ⟨"Positions", "ポジション数"⟩),
  ("stat-cash-label", ⟨"Cash", "現金"⟩),
  ("chart-title", ⟨"Cumulative Return", "累積リターン"⟩),
  ("holdings-title", ⟨"Current Holdings", "保有銘柄"⟩),
  ("geo-label", ⟨"Geography", "地域配分"⟩),
  ("sector-label", ⟨"Sector", "セクター配分"⟩),
  ("th-ticker", ⟨"Ticker", "銘柄コード"⟩),
  ("th-sector", ⟨"Sector", "セクター"⟩),
  ("th-weight", ⟨"Weight", "比率"⟩),
  ("th-avg-cost", ⟨"Avg Cost", "平均取得価格"⟩),
  ("th-current", ⟨"Current", "現在価格"⟩),
  ("th-return", ⟨"Return", "リターン"⟩),
  ("filter-all", ⟨"All", "全て"⟩),
  ("filter-japan", ⟨"Japan", "日本"⟩)
]

/-- Entries 25–48 of the `translations` constant (split only to keep elaboration light; `translations` below is their concatenation in source order). -/
def translationsPart2 : List (String × TransEntry) := [
  ("filter-us", ⟨"US", "米国"⟩),
  ("trades-title", ⟨"Trade History", "取引履歴"⟩),
  ("trades-subtitle", ⟨"取引履歴", "Trade History"⟩),
  ("th-date", ⟨"Date", "日付"⟩),
  ("th-action", ⟨"Action", "売買"⟩),
  ("th-shares", ⟨"Shares", "株数"⟩),
  ("th-price", ⟨"Price", "価格"⟩),
  ("th-value", ⟨"Value", "金額"⟩),
  ("th-notes", ⟨"Notes", "備考"⟩),
  ("filter-buys", ⟨"Buys", "買い"⟩),
  ("filter-sells", ⟨"Sells", "売り"⟩),
  ("philosophy-title", ⟨"Investment Philosophy", "投資思想"⟩),
  ("philosophy-subtitle", ⟨"投資思想", "Investment Philosophy"⟩),
  ("philosophy-intro-1", ⟨"This portfolio operates on a simple premise: neither pure quantitative models nor pure fundamental analysis produce the best risk-adjusted returns, especially in cross-border investing. The strongest edge comes from knowing exactly where the human brain outperforms the machine — and where it doesn\u0027t.", "このポートフォリオは、シンプルな前提に基づいています。純粋な計量モデルでも純粋なファンダメンタル分析でもない——クロスボーダー投資において最良のリスク調整後リターンを生み出すのは、人間の頭脳が機械を上回る領域と、その逆の領域を正確に見極めることです。"⟩),
  ("philosophy-intro-2", ⟨"What follows is a four-phase investment process that alternates between automated computation and irreplaceable human judgment. The machine handles data aggregation, covariance estimation, and position sizing. The human handles accounting forensics, geopolitical interpretation, and the identification of structural mispricings that no algorithm can detect.", "以下に示すのは、自動計算と代替不可能な人間の判断を交互に用いる4段階の投資プロセスです。機械はデータ集約、共分散推定、ポジションサイジングを担当し、人間は会計フォレンジック、地政学的解釈、そしてアルゴリズムでは検出不可能な構造的ミスプライシングの特定を担当します。"⟩),
  ("phase1-title", ⟨"The Mechanical Net", "機械のフィルター"⟩),
  ("phase1-sub", ⟨"Data Aggregation", "データ集約"⟩),
  ("phase1-body", ⟨"The investment universe spans 40–50 cross-border equities across the TSE and US exchanges. Manually monitoring prices, volatilities, and valuations across this universe is not scalable — and introduces behavioral bias before any analysis even begins.", "投資ユニバースは東証と米国取引所にまたがる40〜50のクロスボーダー銘柄で構成されます。このユニバース全体の価格、ボラティリティ、バリュエーションを手動でモニタリングすることはスケーラブルではなく、分析が始まる前からバイアスが入り込みます。"⟩),
  ("phase1-input", ⟨"A Python pipeline pulls daily closing prices and valuation metrics (P/B, P/E, EV/EBITDA) for the full ticker universe via automated API calls.", "Pythonパイプラインが自動API呼び出しを通じて、投資ユニバース全銘柄の日次終値とバリュエーション指標（PBR、PER、EV/EBITDA）を取得します。"⟩),
  ("phase1-process", ⟨"The script calculates rolling standard and downside volatility, then flags any company whose Price-to-Book ratio drops below a predefined threshold — for example, below 1.0 on the TSE.", "スクリプトがローリング標準ボラティリティと下方ボラティリティを計算し、PBRが事前設定の閾値（例：東証で1.0倍）を下回った企業をフラグします。"⟩),
  ("phase1-output", ⟨"A shortlist of 3–5 companies that warrant human attention this week. No news, no charts, no noise — just the numbers.", "今週人間の注目に値する3〜5社のショートリスト。ニュースなし、チャートなし、ノイズなし——数字だけです。"⟩),
  ("phase2-title", ⟨"The Numerical Bypass", "数値分析バイパス"⟩),
  ("phase2-sub", ⟨"Overcoming the Reading Bottleneck", "読解ボトルネックの克服"⟩),
  ("phase2-body", ⟨"A 200-page Yuho (有価証券報告書) is a massive time sink, even with strong Japanese fluency. Dense corporate prose and kanji-heavy management narratives slow down analysis for any heritage speaker. The cyborg approach bypasses the narrative entirely and goes straight to the ledger.", "200ページの有価証券報告書は、日本語が堪能であっても膨大な時間を要します。難解な企業文体と漢字の多い経営記述は、ヘリテージスピーカーであっても分析を遅らせます。サイボーグ・アプローチはナラティブを完全にバイパスし、帳簿に直接アクセスします。"⟩)
]

/-- Entries 49–72 of the `translations` constant (split only to keep elaboration light; `translations` below is their concatenation in source order). -/
def translationsPart3 : List (String × TransEntry) := [
  ("phase2-machine", ⟨"Raw, unadjusted J-GAAP and US-GAAP ledgers are exported directly from data platforms into structured spreadsheets. No PDFs, no narrative — just the accounting lines.", "未調整のJ-GAAPおよびUS-GAAPの生データをデータプラットフォームから直接構造化スプレッドシートにエクスポートします。PDFなし、ナラティブなし——会計データのみ。"⟩),
  ("phase2-human", ⟨"With Boki-level accounting vocabulary and direct ledger access, the reading barrier vanishes. Focus goes exclusively to the lines that matter: Retained Earnings (利益剰余金), Goodwill (のれん), and Cross-Shareholdings (持ち合い株).", "簿記レベルの会計用語と帳簿への直接アクセスにより、読解の壁は消えます。焦点は重要な項目にのみ——利益剰余金、のれん、持ち合い株。"⟩),
  ("phase3-title", ⟨"The Human Brain", "人間の頭脳"⟩),
  ("phase3-sub", ⟨"Generating Alpha", "アルファの創出"⟩),
  ("phase3-body", ⟨"This is the one phase where the machine is completely shut off. No algorithm can interpret that the Bank of Japan\u0027s yield curve control policy is artificially depressing a specific sector. No model understands that a Japanese industrial company is sandbagging its earnings guidance to manage domestic expectations.", "これは機械を完全にオフにする唯一のフェーズです。日本銀行のイールドカーブ・コントロール政策が特定セクターを人為的に抑圧していることをアルゴリズムは解釈できません。日本の製造業が国内向けの期待管理のために業績予想を控えめに出していることをモデルは理解できません。"⟩),
  ("phase3-analysis", ⟨"The exported ledgers feed a 3-statement DCF model. Aggressive J-GAAP goodwill amortization is added back to find true Free Cash Flow. WACC is adjusted based on a geopolitical read of US-Japan trade dynamics.", "エクスポートされた帳簿データを3表連結DCFモデルに投入します。J-GAAPの積極的なのれん償却を加算してFCFの実態を把握し、日米通商関係の地政学的分析に基づきWACCを調整します。"⟩),
  ("phase3-output", ⟨"An intrinsic value estimate becomes a Black-Litterman View (<em>Q</em>), paired with a confidence parameter (<em>Ω</em>) calibrated to the strength of the accounting adjustment. Rock-solid forensics get high confidence; speculative macro reads get low.", "本源的価値の推定がBlack-LittermanのView（<em>Q</em>）となり、会計調整の確度に応じた信頼度パラメータ（<em>Ω</em>）と組み合わされます。堅実な会計分析には高い信頼度、投機的なマクロ読みには低い信頼度を設定します。"⟩),
  ("phase4-title", ⟨"The Mathematical Enforcer", "数学的リスク管理"⟩),
  ("phase4-sub", ⟨"Risk Management & Execution", "リスク管理と執行"⟩),
  ("phase4-body", ⟨"A brilliant thesis without disciplined sizing is how portfolios blow up. The human generates the conviction; the machine acts as risk manager, enforcing mathematical constraints that override emotional attachment to any single position.", "規律あるサイジングのない優れた投資テーゼは、ポートフォリオを破綻させます。人間が確信を生み出し、機械がリスク管理者として、個別ポジションへの感情的な執着を数学的制約で抑制します。"⟩),
  ("phase4-input", ⟨"The View (<em>Q</em>) feeds into the Python optimization engine built during the EDHEC Investment Management specialization.", "View（<em>Q</em>）をEDHEC Investment Management専門課程で構築したPython最適化エンジンに入力します。"⟩),
  ("phase4-process", ⟨"The optimizer recalculates the Downside-ERC anchor with latest data, applies Ledoit-Wolf shrinkage (τ = 0.5) to the covariance matrix, and runs the Black-Litterman posterior to blend market-implied returns with the fundamental view.", "オプティマイザが最新データでDownside-ERCアンカーを再計算し、共分散行列にLedoit-Wolf縮約（τ = 0.5）を適用、Black-Littermanの事後分布を実行してマーケット・インプライド・リターンとファンダメンタル・ビューを統合します。"⟩),
  ("phase4-output", ⟨"A maximum portfolio weight — not a target, a ceiling. The machine might say: \"This stock is undervalued, but it has severe negative skewness and high correlation to existing holdings. Maximum allocation: 4.2%.\"", "ポートフォリオの最大ウェイト——目標ではなく上限です。機械はこう言うかもしれません：「この銘柄は割安だが、深刻な負のスキューと既存保有銘柄との高い相関がある。最大配分：4.2%。」"⟩),
  ("roadmap-label", ⟨"Roadmap", "今後の実装"⟩),
  ("future-rag-title", ⟨"RAG-Powered Filing Analysis", "RAG活用の開示書類分析"⟩),
  ("future-rag-desc", ⟨"An LLM pipeline connected to the EDINET API to automatically extract specific accounting variables from Yuho filings, bypassing the kanji reading bottleneck entirely and feeding structured data directly into valuation models.", "EDINET APIに接続したLLMパイプラインにより、有価証券報告書から特定の会計変数を自動抽出し、漢字の読解ボトルネックを完全にバイパスして構造化データを直接バリュエーションモデルに投入します。"⟩),
  ("future-hrp-title", ⟨"Geopolitical Hierarchical Risk Parity", "地政学的階層リスクパリティ"⟩),
  ("future-hrp-desc", ⟨"Replacing the standard covariance matrix with HRP clustering that incorporates supply chain dependencies and geographic revenue exposure — ensuring a single geopolitical shock can\u0027t cascade across ostensibly uncorrelated positions.", "標準的な共分散行列を、サプライチェーン依存関係と地域別売上構成を組み込んだHRPクラスタリングに置き換え、単一の地政学的ショックが一見無相関なポジション間で連鎖しないことを保証します。"⟩),
  ("future-regime-title", ⟨"Regime Detection", "レジーム検出"⟩),
  ("future-regime-desc", ⟨"A Hidden Markov Model monitoring macro indicators (USD/JPY velocity, BOJ signals, VIX) to dynamically adjust shrinkage intensity and risk metric selection between stable and crisis market environments.", "マクロ指標（USD/JPYの変動速度、日銀シグナル、VIX）を監視する隠れマルコフモデルにより、安定期と危機的市場環境に応じて縮約強度とリスク指標の選択を動的に調整します。"⟩),
  ("future-lib-title", ⟨"Accounting Arbitrage Library", "会計アービトラージ・ライブラリ"⟩),
  ("future-lib-desc", ⟨"A proprietary Python library automating J-GAAP and US-GAAP adjustments across the full investment universe — recalculating intrinsic values for all 40+ tickers simultaneously and generating a complete Black-Litterman view matrix in seconds.", "投資ユニバース全体のJ-GAAPとUS-GAAP調整を自動化する独自Pythonライブラリ——40銘柄以上の本源的価値を同時に再計算し、完全なBlack-Littermanビュー行列を数秒で生成します。"⟩),
  ("research-title", ⟨"Research", "リサーチ"⟩),
  ("research-subtitle", ⟨"リサーチ", "Research"⟩)
]

/-- Entries 73–93 of the `translations` constant (split only to keep elaboration light; `translations` below is their concatenation in source order). -/
def translationsPart4 : List (String × TransEntry) := [
  ("research-intro", ⟨"Investment theses and tear sheets for current and past portfolio positions. Each report details the governance thesis, accounting adjustments, valuation model, and risk assessment that informed the trade.", "現在および過去のポートフォリオ・ポジションに関する投資テーゼとティアシート。各レポートは、取引判断の根拠となったガバナンス・テーゼ、会計調整、バリュエーション・モデル、リスク評価を詳述します。"⟩),
  ("filter-theses", ⟨"Theses", "投資テーゼ"⟩),
  ("filter-tearsheets", ⟨"Tear Sheets", "ティアシート"⟩),
  ("about-title", ⟨"About Me", "プロフィール"⟩),
  ("about-background-label", ⟨"Background", "経歴"⟩),
  ("about-bg-1", ⟨"I was born in Japan, raised in Manhattan, and spent my formative years moving between Tokyo and New York. I attended public school in New York through sixth grade, then returned to Tokyo for two years at Nishimachi International School before enrolling at Keio Academy of New York, a bi-cultural school in Purchase, New York affiliated with Keio University.", "日本で生まれ、マンハッタンで育ち、東京とニューヨークを行き来する中で人格形成期を過ごしました。ニューヨークの公立学校に6年生まで通った後、東京の西町インターナショナルスクールで2年間過ごし、その後慶應義塾ニューヨーク学院に入学しました。"⟩),
  ("about-bg-2", ⟨"This constant movement between two worlds gave me something I didn\u0027t fully appreciate until later: <strong>the ability to see both markets from the inside</strong>. I think in English but I understand Japanese corporate culture intuitively. I can read a 10-K and an 有価証券報告書 with equal comfort. That dual fluency — linguistic and financial — is the foundation everything else is built on.", "二つの世界を絶えず行き来する生活は、後になるまで十分に理解できなかった強みを与えてくれました。<strong>両方の市場を内側から見る力</strong>です。英語で思考しながら、日本の企業文化を直感的に理解します。10-Kも有価証券報告書も同じように読みこなせます。この二重の流暢さ——言語と金融の両面における——が、全ての基盤です。"⟩),
  ("about-bg-3", ⟨"I\u0027m currently a first-year student at <strong>George Washington University\u0027s Elliott School of International Affairs</strong>, where I study international economics with a focus on the political economy of corporate governance reform in Japan.", "現在、<strong>ジョージ・ワシントン大学エリオット国際関係大学院</strong>の1年生として、日本のコーポレート・ガバナンス改革の政治経済学を中心に国際経済学を学んでいます。"⟩),
  ("about-philosophy-label", ⟨"Investment Philosophy", "投資哲学"⟩),
  ("about-phil-1", ⟨"I\u0027m fascinated by the structural differences between how American and Japanese firms organize themselves, allocate capital, and make decisions. Japan\u0027s corporate governance revolution — the shift from cross-shareholdings and consensus-driven stasis toward shareholder value and board independence — is one of the most consequential investment themes of this decade, and most Western analysts are only seeing it from the outside.", "米国企業と日本企業の組織構造、資本配分、意思決定における構造的な違いに深い関心を持っています。日本のコーポレート・ガバナンス改革——持ち合いとコンセンサス重視の膠着状態から株主価値と取締役会の独立性への転換——は今の10年間で最も重要な投資テーマの一つであり、ほとんどの欧米アナリストは外側からしか見ていません。"⟩),
  ("about-phil-2", ⟨"My investment approach begins with governance. I look for companies where structural reform is unlocking value that the market hasn\u0027t fully priced in — whether that\u0027s unwinding cross-shareholdings, improving capital allocation, or appointing independent directors who actually push for change. I pair this top-down governance lens with bottom-up financial analysis to build concentrated positions in companies I understand deeply.", "投資アプローチはガバナンスから始まります。構造改革が市場に十分織り込まれていない価値を解き放つ企業を探します——持ち合い解消、資本配分の改善、あるいは実際に変革を推進する独立取締役の選任など。このトップダウンのガバナンス視点とボトムアップの財務分析を組み合わせ、深く理解した企業に集中的にポジションを構築します。"⟩),
  ("about-phil-3", ⟨"This portfolio is benchmarked primarily against the <strong>Nikkei 225</strong> and secondarily against the <strong>S&P 500</strong>, reflecting my conviction that the most compelling opportunities right now are in Japanese equities — but with selective US exposure where I see asymmetric risk-reward.", "このポートフォリオは主に<strong>日経225</strong>、副次的に<strong>S&P 500</strong>をベンチマークとしています。これは、現在最も魅力的な投資機会が日本株にあるという確信を反映していますが、非対称なリスク・リターンが見込める場合には選択的に米国エクスポージャーも取ります。"⟩),
  ("about-career-label", ⟨"Career Focus", "キャリア"⟩),
  ("about-career-1", ⟨"I\u0027m pursuing a career in <strong>asset management at a foreign-affiliated firm in Tokyo</strong> — firms like Goldman Sachs Asset Management, BlackRock Japan, or Fidelity International. I want to work in environments that value independent thinking and analytical rigor over seniority and conformity.", "<strong>東京の外資系資産運用会社</strong>——ゴールドマン・サックス・アセット・マネジメント、ブラックロック・ジャパン、フィデリティ・インターナショナルなど——でのキャリアを目指しています。年功序列や画一性よりも、独立した思考と分析の厳密さを重視する環境で働きたいと考えています。"⟩),
  ("about-career-2", ⟨"My edge is positioning: I can bridge American analytical frameworks with deep Japanese market knowledge in a way that\u0027s difficult to replicate. I\u0027m not a foreigner trying to learn Japan, and I\u0027m not a domestic candidate unfamiliar with global best practices. I sit in between — and that\u0027s where the most interesting investment work happens.", "私の強みはポジショニングにあります。米国の分析フレームワークと日本市場の深い知識を、再現が難しい形で橋渡しできます。日本を学ぼうとする外国人でもなく、グローバルなベストプラクティスに疎い国内候補者でもありません。その間に立つ——そこに最も興味深い投資の仕事があります。"⟩),
  ("about-path-label", ⟨"Path", "歩み"⟩),
  ("about-credentials-label", ⟨"Credentials", "資格"⟩),
  ("about-languages-label", ⟨"Languages", "言語"⟩),
  ("about-tools-label", ⟨"Tools", "ツール"⟩),
  ("footer-disclaimer", ⟨"Shadow portfolio for educational purposes only. Not investment advice.<br>Data refreshed daily via automated pipeline. Past performance does not indicate future results.", "教育目的のシャドウ・ポートフォリオです。投資助言ではありません。<br>データは自動パイプラインにより毎日更新されます。過去の成績は将来の結果を保証するものではありません。"⟩),
  ("footer-short", ⟨"Shadow portfolio for educational purposes only. Not investment advice.", "教育目的のシャドウ・ポートフォリオです。投資助言ではありません。"⟩)
]

/-- The `translations` constant of `src/js/main.js`, key by key, in source order.  (Apostrophes in the English strings are written with the escape \u0027.) -/
def translations : List (String × TransEntry) :=
  translationsPart1 ++ translationsPart2 ++ translationsPart3 ++ translationsPart4

/-- JS property access `translations[key]`: the first entry with that key
(the table has no duplicate keys). -/
def lookupTranslation (key : String) : Option TransEntry :=
  (translations.find? (fun p => p.1 = key)).map Prod.snd

/-- JS property access `entry[lang]` on a translation record: defined for the
two locale properties `en` and `jp`, `undefined` (here `none`) otherwise. -/
def entryGet (e : TransEntry) (lang : String) : Option String :=
  if lang = "en" then some e.en
  else if lang = "jp" then some e.jp
  else none

/-- The combined guard `translations[key] && translations[key][currentLang]`
of `applyTranslations`, as the value it selects: `some s` iff the key is in
the table, the record has the locale property, and the string is truthy
(non-empty); `none` otherwise. -/
def truthyVal (key lang : String) : Option String :=
  match lookupTranslation key with
  | none => none
  | some e =>
    match entryGet e lang with
    | none => none
    | some s => if s = "" then none else some s

/-- A DOM element, as far as this script observes it: its `data-i18n`
attribute (if any) and its `innerHTML` (raw markup, never escaped). -/
structure Element where
  dataI18n : Option String
  innerHTML : String
deriving DecidableEq, Repr

/-- The `localStorage` model: the two keys this script uses, plus a flag
`ok`; when `ok = false` every `getItem`/`setItem` call raises. -/
structure Store where
  ok : Bool
  darkMode : Option String
  lang : Option String
deriving DecidableEq, Repr

/-- The DOM and module state: the two module variables `isDarkMode` and
`currentLang`, the `dark` class on `document.body`, the text content of the
two buttons (`none` when the element is absent from the page), the list of
page elements, and the payloads of the `langchange` events dispatched on the
document so far, in order. -/
structure SiteState where
  isDarkMode : Bool
  currentLang : String
  bodyDark : Bool
  darkBtn : Option String
  langBtn : Option String
  elements : List Element
  events : List String
deriving DecidableEq, Repr

/-- `localStorage.getItem(key)`: raises when the store is unavailable. -/
def storeGetItem (s : Store) (key : String) : Except Unit (Option String) :=
  if s.ok then
    Except.ok (if key = "darkMode" then s.darkMode
               else if key = "lang" then s.lang else none)
  else Except.error ()

/-- `localStorage.setItem(key, value)`: raises when the store is
unavailable. -/
def storeSetItem (s : Store) (key value : String) : Except Unit Store :=
  if s.ok then
    Except.ok (if key = "darkMode" then { s with darkMode := some value }
               else if key = "lang" then { s with lang := some value } else s)
  else Except.error ()

/-- The body of the `forEach` in `applyTranslations`, per element: elements
without `data-i18n` are not selected; for a selected element, when the
combined guard holds its `innerHTML` is assigned, otherwise it is left
untouched. -/
def translateEl (lang : String) (el : Element) : Element :=
  match el.dataI18n with
  | none => el
  | some key =>
    match truthyVal key lang with
    | some s => { el with innerHTML := s }
    | none => el

/-- `applyTranslations()`: rewrites every `[data-i18n]` element from the
table under the current language, sets the label of the language button to the
code of the other language (when the button exists), then dispatches a
`langchange` event carrying the current language. -/
def applyTranslations (st : SiteState) : SiteState :=
  { st with
    elements := st.elements.map (translateEl st.currentLang),
    langBtn := st.langBtn.map (fun _ => if st.currentLang = "en" then "JP" else "EN"),
    events := st.events ++ [st.currentLang] }

/-- The part of `toggleDarkMode()` before the `try` block: flip the flag,
force the `dark` class to the new flag, set the button glyph (when the
button exists). -/
def toggleDarkModeUI (st : SiteState) : SiteState :=
  { st with
    isDarkMode := !st.isDarkMode,
    bodyDark := !st.isDarkMode,
    darkBtn := st.darkBtn.map (fun _ => if !st.isDarkMode then "☀" else "☾") }

/-- `toggleDarkMode()`: UI update, then
a guarded `localStorage.setItem` of the `darkMode` key. -/
def toggleDarkMode (st : SiteState) (s : Store) : Except Unit (SiteState × Store) :=
  let st2 := toggleDarkModeUI st
  let s2 := match storeSetItem s "darkMode" (if st2.isDarkMode then "1" else "0") with
            | Except.ok s3 => s3
            | Except.error _ => s
  Except.ok (st2, s2)

/-- The part of `toggleLanguage()` before the `try` block: flip
`currentLang` between the two locales, then render. -/
def toggleLanguageUI (st : SiteState) : SiteState :=
  applyTranslations { st with currentLang := if st.currentLang = "en" then "jp" else "en" }

/-- `toggleLanguage()`: flip and render, then
a guarded `localStorage.setItem` of the `lang` key. -/
def toggleLanguage (st : SiteState) (s : Store) : Except Unit (SiteState × Store) :=
  let st2 := toggleLanguageUI st
  let s2 := match storeSetItem s "lang" st2.currentLang with
            | Except.ok s3 => s3
            | Except.error _ => s
  Except.ok (st2, s2)

/-- `applyDarkMode()`: the whole body is inside `try { ... } catch(e) {}`;
only a saved value exactly `"1"` has any effect. -/
def applyDarkMode (st : SiteState) (s : Store) : SiteState :=
  match storeGetItem s "darkMode" with
  | Except.error _ => st
  | Except.ok saved =>
    if saved = some "1" then
      { st with
        isDarkMode := true,
        bodyDark := true,
        darkBtn := st.darkBtn.map (fun _ => "☀") }
    else st

/-- `applyLanguage()`: the whole body is inside `try { ... } catch(e) {}`;
only a saved value exactly `"jp"` has any effect (set and render, no
toggle). -/
def applyLanguage (st : SiteState) (s : Store) : SiteState :=
  match storeGetItem s "lang" with
  | Except.error _ => st
  | Except.ok saved =>
    if saved = some "jp" then applyTranslations { st with currentLang := "jp" }
    else st

/-- `initSiteControls()`: apply the saved theme, then the saved language.
(The listener attachment that follows in the source installs the toggle
handlers and does not touch the state modelled here.) -/
def initSiteControls (st : SiteState) (s : Store) : SiteState :=
  applyLanguage (applyDarkMode st s) s

/-- One DOM side effect of `applyTranslations`, for stating the order of
effects within a render. -/
inductive DomAction where
  | setContent (index : Nat) (html : String)
  | setButtonText (text : String)
  | dispatchLangChange (lang : String)
deriving DecidableEq, Repr

/-- The effect (if any) the `forEach` body of `applyTranslations` performs
on the element at a given index. -/
def translateAction (lang : String) (i : Nat) (el : Element) : Option DomAction :=
  match el.dataI18n with
  | none => none
  | some key =>
    match truthyVal key lang with
    | some s => some (DomAction.setContent i s)
    | none => none

/-- The sequence of DOM side effects of one `applyTranslations()` call, in
source order: the per-element content assignments of the `forEach`, then the
language button label (when the button exists), then the `langchange`
dispatch. -/
def applyTranslationsTrace (st : SiteState) : List DomAction :=
  (st.elements.enum.filterMap (fun p => translateAction st.currentLang p.1 p.2)) ++
  (match st.langBtn with
   | some _ => [DomAction.setButtonText (if st.currentLang = "en" then "JP" else "EN")]
   | none => []) ++
  [DomAction.dispatchLangChange st.currentLang]

/-- An invocation of one of the four public operations. -/
inductive Op where
  | tDark
  | tLang
  | aDark
  | aLang
deriving DecidableEq, Repr

/-- Run one operation (the toggles never raise, so the error branch is
unreachable and leaves the state alone; the apply operations never write the
store). -/
def runOp (p : SiteState × Store) : Op → SiteState × Store
  | Op.tDark =>
    match toggleDarkMode p.1 p.2 with
    | Except.ok q => q
    | Except.error _ => p
  | Op.tLang =>
    match toggleLanguage p.1 p.2 with
    | Except.ok q => q
    | Except.error _ => p
  | Op.aDark => (applyDarkMode p.1 p.2, p.2)
  | Op.aLang => (applyLanguage p.1 p.2, p.2)

/-- Run a sequence of operations. -/
def runOps (p : SiteState × Store) : List Op → SiteState × Store
  | [] => p
  | op :: rest => runOps (runOp p op) rest

/-- A state is rendered when every tagged element whose key selects a truthy
string for the current language already displays that string — exactly what
holds right after any `applyTranslations()` call. -/
def rendered (st : SiteState) : Bool :=
  st.elements.all (fun el =>
    match el.dataI18n with
    | none => true
    | some key =>
      match truthyVal key st.currentLang with
      | none => true
      | some v => el.innerHTML == v)

/-- The range the SPEC claims for the persisted keys (section 6 of the
spec): `darkMode` is `"1"` or absent and `lang` is `"jp"` or absent.  Stated
from the words of the spec, to be compared against the code. -/
def specClaimedStoreRange (s : Store) : Prop :=
  (s.darkMode = some "1" ∨ s.darkMode = none) ∧
  (s.lang = some "jp" ∨ s.lang = none)

/-- The range the CODE maintains for the persisted keys: `toggleDarkMode`
writes `"1"` or `"0"`, `toggleLanguage` writes `"jp"` or `"en"`. -/
def storeRange (s : Store) : Prop :=
  (s.darkMode = some "1" ∨ s.darkMode = some "0" ∨ s.darkMode = none) ∧
  (s.lang = some "jp" ∨ s.lang = some "en" ∨ s.lang = none)


/-! ## Basic facts about the table and the render step -/

/-- Every entry of the compiled table carries a non-empty string for both
locales (so the truthiness guard of `applyTranslations` never rejects a
present entry). -/
theorem translations_nonempty : ∀ p ∈ translations, p.2.en ≠ "" ∧ p.2.jp ≠ "" := by
  decide

/-- A successful lookup comes from a table member with the looked-up key. -/
theorem lookup_mem {k : String} {e : TransEntry} (h : lookupTranslation k = some e) :
    ∃ p ∈ translations, p.1 = k ∧ p.2 = e := by
  unfold lookupTranslation at h
  cases hf : translations.find? (fun p => p.1 = k) with
  | none => rw [hf] at h; exact Option.noConfusion h
  | some p =>
    rw [hf] at h
    obtain rfl : p.2 = e := by simpa using h
    exact ⟨p, List.mem_of_find?_eq_some hf, by simpa using List.find?_some hf, rfl⟩

/-- Any entry a lookup returns has non-empty strings for both locales. -/
theorem lookup_nonempty {k : String} {e : TransEntry} (h : lookupTranslation k = some e) :
    e.en ≠ "" ∧ e.jp ≠ "" := by
  obtain ⟨p, hp, -, rfl⟩ := lookup_mem h
  exact translations_nonempty p hp

theorem entryGet_en (e : TransEntry) : entryGet e "en" = some e.en := rfl

theorem entryGet_jp (e : TransEntry) : entryGet e "jp" = some e.jp := by
  unfold entryGet
  rw [if_neg (by decide), if_pos rfl]

/-- Property access on a translation record succeeds only for the two locale
properties. -/
theorem entryGet_some {e : TransEntry} {lang s : String} (h : entryGet e lang = some s) :
    (lang = "en" ∧ s = e.en) ∨ (lang = "jp" ∧ s = e.jp) := by
  unfold entryGet at h
  by_cases h1 : lang = "en"
  · rw [if_pos h1] at h
    exact Or.inl ⟨h1, by simpa using h.symm⟩
  · rw [if_neg h1] at h
    by_cases h2 : lang = "jp"
    · rw [if_pos h2] at h
      exact Or.inr ⟨h2, by simpa using h.symm⟩
    · rw [if_neg h2] at h
      simp at h

/-- On the compiled table, a present locale string always passes the
truthiness guard. -/
theorem truthyVal_of_entryGet {k lang s : String} {e : TransEntry}
    (hl : lookupTranslation k = some e) (hg : entryGet e lang = some s) :
    truthyVal k lang = some s := by
  have hne := lookup_nonempty hl
  rcases entryGet_some hg with ⟨-, rfl⟩ | ⟨-, rfl⟩
  · simp [truthyVal, hl, hg, hne.1]
  · simp [truthyVal, hl, hg, hne.2]

theorem truthyVal_en {k : String} {e : TransEntry} (h : lookupTranslation k = some e) :
    truthyVal k "en" = some e.en :=
  truthyVal_of_entryGet h (entryGet_en e)

theorem truthyVal_jp {k : String} {e : TransEntry} (h : lookupTranslation k = some e) :
    truthyVal k "jp" = some e.jp :=
  truthyVal_of_entryGet h (entryGet_jp e)

theorem truthyVal_of_lookup_none {k : String} (lang : String)
    (h : lookupTranslation k = none) : truthyVal k lang = none := by
  unfold truthyVal
  rw [h]

theorem truthyVal_of_entryGet_none {k lang : String} {e : TransEntry}
    (hl : lookupTranslation k = some e) (hg : entryGet e lang = none) :
    truthyVal k lang = none := by
  simp [truthyVal, hl, hg]

/-- The render step never changes the `data-i18n` attribute. -/
theorem translateEl_dataI18n (lang : String) (el : Element) :
    (translateEl lang el).dataI18n = el.dataI18n := by
  cases el with
  | mk d html =>
    cases d with
    | none => rfl
    | some k =>
      cases ht : truthyVal k lang with
      | none => simp [translateEl, ht]
      | some s => simp [translateEl, ht]

/-! ## Shared concrete instances for the witnesses -/

/-- A concrete tagged element whose authored content already equals its
English table string. -/
def exElement : Element := ⟨some "nav-portfolio", "Portfolio"⟩

/-- A concrete page: one tagged element, both buttons present, defaults. -/
def exState : SiteState :=
  { isDarkMode := false, currentLang := "en", bodyDark := false,
    darkBtn := some "☾", langBtn := some "JP",
    elements := [exElement], events := [] }

/-- A fresh, working store: both keys absent. -/
def exStore : Store := ⟨true, none, none⟩

/-- A store on which every read and write raises. -/
def exBadStore : Store := ⟨false, none, none⟩

/-! ## Claims -/

/-- C1: after `applyTranslations`, a tagged element whose key has a table
entry with a string for the current language carries exactly that string as
its `innerHTML` (assigned as markup, never escaped — the model stores
`innerHTML` raw); a tagged element whose key is absent from the table, or
whose entry has no property for the current language, is left unmodified. -/
theorem applyTranslations_content (st : SiteState) (i : Nat) (key : String) (el : Element)
    (hel : st.elements[i]? = some el) (hk : el.dataI18n = some key) :
    (∀ e s, lookupTranslation key = some e → entryGet e st.currentLang = some s →
        (applyTranslations st).elements[i]? = some { el with innerHTML := s }) ∧
    ((lookupTranslation key = none ∨
        (∃ e, lookupTranslation key = some e ∧ entryGet e st.currentLang = none)) →
      (applyTranslations st).elements[i]? = some el) := by
  have hmap : (applyTranslations st).elements[i]? = (st.elements[i]?).map (translateEl st.currentLang) := by
    simp [applyTranslations]
  constructor
  · intro e s he hs
    rw [hmap, hel]
    have hrw : translateEl st.currentLang el = { el with innerHTML := s } := by
      cases el with
      | mk d html =>
        obtain rfl : d = some key := by simpa using hk
        simp [translateEl, truthyVal_of_entryGet he hs]
    simp [hrw]
  · intro hnone
    rw [hmap, hel]
    have ht : truthyVal key st.currentLang = none := by
      rcases hnone with h0 | ⟨e, he, hg⟩
      · exact truthyVal_of_lookup_none st.currentLang h0
      · exact truthyVal_of_entryGet_none he hg
    have hrw : translateEl st.currentLang el = el := by
      cases el with
      | mk d html =>
        obtain rfl : d = some key := by simpa using hk
        simp [translateEl, ht]
    simp [hrw]

/-- C1 witness: on a concrete page in English, the `nav-portfolio` element
is set to the English table string. -/
theorem applyTranslations_content_witness :
    (applyTranslations exState).elements[0]? = some ⟨some "nav-portfolio", "Portfolio"⟩ :=
  (applyTranslations_content exState 0 "nav-portfolio" exElement rfl rfl).1
    ⟨"Portfolio", "ポートフォリオ"⟩ "Portfolio" rfl rfl

/-- C9: every key of the compiled table maps to a record with a (non-empty)
string for both locales, so a tagged element whose key is found in the table
is never skipped by the render for lack of the current language: the
truthiness guard selects the locale string, in either language. -/
theorem translations_total (k : String) (e : TransEntry)
    (h : lookupTranslation k = some e) :
    (∀ p ∈ translations, p.2.en ≠ "" ∧ p.2.jp ≠ "") ∧
    truthyVal k "en" = some e.en ∧ truthyVal k "jp" = some e.jp :=
  ⟨translations_nonempty, truthyVal_en h, truthyVal_jp h⟩

/-- C9 witness: instantiated at the `nav-portfolio` key. -/
theorem translations_total_witness :
    truthyVal "nav-portfolio" "en" = some "Portfolio" ∧
    truthyVal "nav-portfolio" "jp" = some "ポートフォリオ" :=
  (translations_total "nav-portfolio" ⟨"Portfolio", "ポートフォリオ"⟩ rfl).2

/-- The shape of a per-element action of the render loop: always a content
assignment at the visited index. -/
theorem translateAction_shape {l : String} {i : Nat} {el : Element} {a : DomAction}
    (h : translateAction l i el = some a) : ∃ s, a = DomAction.setContent i s := by
  cases el with
  | mk d html =>
    cases d with
    | none => exact Option.noConfusion h
    | some k =>
      cases ht : truthyVal k l with
      | none => unfold translateAction at h; simp [ht] at h
      | some s =>
        unfold translateAction at h
        simp only [ht] at h
        exact ⟨s, (Option.some.inj h).symm⟩

/-- C6: one `applyTranslations()` call dispatches the `langchange` event
exactly once, with the current language as payload, and the dispatch is the
last DOM effect of the render — in particular it comes after every
tagged-element content update of that render. -/
theorem applyTranslations_dispatch (st : SiteState) :
    (applyTranslations st).events = st.events ++ [st.currentLang] ∧
    (∃ pre, applyTranslationsTrace st =
        pre ++ [DomAction.dispatchLangChange st.currentLang] ∧
      ∀ a ∈ pre, ∀ l, a ≠ DomAction.dispatchLangChange l) := by
  constructor
  · rfl
  · refine ⟨(st.elements.enum.filterMap (fun p => translateAction st.currentLang p.1 p.2)) ++
      (match st.langBtn with
       | some _ => [DomAction.setButtonText (if st.currentLang = "en" then "JP" else "EN")]
       | none => []), ?_, ?_⟩
    · rw [applyTranslationsTrace, List.append_assoc]
    · intro a ha l
      rcases List.mem_append.mp ha with hA | hB
      · obtain ⟨p, -, hp⟩ := List.mem_filterMap.mp hA
        obtain ⟨s, rfl⟩ := translateAction_shape hp
        exact fun h => DomAction.noConfusion h
      · cases hbtn : st.langBtn with
        | none => rw [hbtn] at hB; exact absurd hB (List.not_mem_nil a)
        | some t =>
          rw [hbtn] at hB
          rcases List.mem_singleton.mp hB with rfl
          exact fun h => DomAction.noConfusion h

/-- C6 witness: on the concrete page the event list grows by exactly the
current language. -/
theorem applyTranslations_dispatch_witness :
    (applyTranslations exState).events = exState.events ++ [exState.currentLang] :=
  (applyTranslations_dispatch exState).1


/-- C7: `toggleDarkMode()` negates the flag, forces the `dark` marker on the
body to the new flag (added when true, removed when false), sets the button
glyph to the fixed glyph of the new state when the button exists (and leaves
an absent button absent), touches nothing else in the DOM, and persists the
new flag best-effort: `"1"`/`"0"` is written when the store works, the store
is left untouched when it raises. -/
theorem toggleDarkMode_effect (st : SiteState) (s : Store) (st2 : SiteState) (s2 : Store)
    (h : toggleDarkMode st s = Except.ok (st2, s2)) :
    st2.isDarkMode = !st.isDarkMode ∧
    st2.bodyDark = st2.isDarkMode ∧
    (∀ t, st.darkBtn = some t →
      st2.darkBtn = some (if st2.isDarkMode then "☀" else "☾")) ∧
    (st.darkBtn = none → st2.darkBtn = none) ∧
    st2.currentLang = st.currentLang ∧
    st2.langBtn = st.langBtn ∧
    st2.elements = st.elements ∧
    st2.events = st.events ∧
    (s.ok = true → s2 = { s with darkMode := some (if st2.isDarkMode then "1" else "0") }) ∧
    (s.ok = false → s2 = s) := by
  unfold toggleDarkMode at h
  obtain ⟨rfl, rfl⟩ : toggleDarkModeUI st = st2 ∧ _ = s2 := by
    constructor
    · exact congrArg Prod.fst (Except.ok.inj h)
    · exact congrArg Prod.snd (Except.ok.inj h)
  refine ⟨rfl, rfl, ?_, ?_, rfl, rfl, rfl, rfl, ?_, ?_⟩
  · intro t ht
    simp [toggleDarkModeUI, ht]
  · intro ht
    simp [toggleDarkModeUI, ht]
  · intro hok
    simp [storeSetItem, hok, toggleDarkModeUI]
  · intro hok
    simp [storeSetItem, hok]

/-- C7 witness: a concrete toggle from the light state with a working fresh
store flips the flag on. -/
theorem toggleDarkMode_effect_witness :
    (toggleDarkModeUI exState).isDarkMode = !exState.isDarkMode :=
  (toggleDarkMode_effect exState exStore (toggleDarkModeUI exState)
    { exStore with darkMode := some "1" } rfl).1

/-- C3: when every store access raises, the two toggle handlers still return
normally (`Except.ok`, no exception propagates), the store is left exactly as
it was, and the resulting DOM/in-memory state is `toggleDarkModeUI st` resp.
`toggleLanguageUI st` — exactly the state any run with any store produces, so
the failing run updates flag, marker, glyphs and element contents exactly as
the non-failing one. -/
theorem toggles_tolerate_store_failure (st : SiteState) (s : Store) (h : s.ok = false) :
    toggleDarkMode st s = Except.ok (toggleDarkModeUI st, s) ∧
    toggleLanguage st s = Except.ok (toggleLanguageUI st, s) ∧
    (∀ s3 st2 s4, toggleDarkMode st s3 = Except.ok (st2, s4) → st2 = toggleDarkModeUI st) ∧
    (∀ s3 st2 s4, toggleLanguage st s3 = Except.ok (st2, s4) → st2 = toggleLanguageUI st) := by
  refine ⟨?_, ?_, ?_, ?_⟩
  · simp [toggleDarkMode, storeSetItem, h]
  · simp [toggleLanguage, storeSetItem, h]
  · intro s3 st2 s4 hh
    unfold toggleDarkMode at hh
    exact (congrArg Prod.fst (Except.ok.inj hh)).symm
  · intro s3 st2 s4 hh
    unfold toggleLanguage at hh
    exact (congrArg Prod.fst (Except.ok.inj hh)).symm

/-- C3 witness: on a concrete state with a store whose every access raises,
both toggles return normally with the store untouched. -/
theorem toggles_tolerate_store_failure_witness :
    toggleDarkMode exState exBadStore = Except.ok (toggleDarkModeUI exState, exBadStore) ∧
    toggleLanguage exState exBadStore = Except.ok (toggleLanguageUI exState, exBadStore) := by
  have h := toggles_tolerate_store_failure exState exBadStore rfl
  exact ⟨h.1, h.2.1⟩

/-- C8: with no persisted value under either key, the startup appliers leave
the whole state untouched: flags stay at their defaults and no DOM mutation
happens (`applyDarkMode`, `applyLanguage`, and their composition
`initSiteControls` are all the identity on the state). -/
theorem applyOnLoad_defaults_noop (st : SiteState) (s : Store)
    (h1 : s.darkMode = none) (h2 : s.lang = none) :
    applyDarkMode st s = st ∧ applyLanguage st s = st ∧ initSiteControls st s = st := by
  have hd : applyDarkMode st s = st := by
    unfold applyDarkMode storeGetItem
    cases hok : s.ok with
    | false => rfl
    | true => simp [h1]
  have hl : applyLanguage st s = st := by
    unfold applyLanguage storeGetItem
    cases hok : s.ok with
    | false => rfl
    | true => simp [h2]
  exact ⟨hd, hl, by rw [initSiteControls, hd, hl]⟩

/-- C8 witness: instantiated at the concrete fresh store. -/
theorem applyOnLoad_defaults_noop_witness :
    applyDarkMode exState exStore = exState ∧ applyLanguage exState exStore = exState ∧
    initSiteControls exState exStore = exState :=
  applyOnLoad_defaults_noop exState exStore rfl rfl

/-- C10: a persisted language value that is absent or anything other than
`"jp"` (including `"en"`) makes `applyLanguage()` a complete no-op: the
current language, every element content, both button labels stay as they
are, and no `langchange` event is dispatched; consequently an initialization
over such a store dispatches no event either (an ordinary English page load
emits no notification). -/
theorem applyLanguage_non_jp_noop (st : SiteState) (s : Store) (h : s.lang ≠ some "jp") :
    applyLanguage st s = st ∧
    (applyLanguage st s).events = st.events ∧
    (initSiteControls st s).events = st.events := by
  have key : ∀ st3 : SiteState, applyLanguage st3 s = st3 := by
    intro st3
    unfold applyLanguage storeGetItem
    cases hok : s.ok with
    | false => rfl
    | true => simp [h]
  have hdp : (applyDarkMode st s).events = st.events := by
    unfold applyDarkMode
    cases storeGetItem s "darkMode" with
    | error e => rfl
    | ok saved =>
      by_cases hs : saved = some "1"
      · simp [hs]
      · simp [hs]
  refine ⟨key st, by rw [key st], ?_⟩
  rw [initSiteControls, key (applyDarkMode st s), hdp]

/-- C10 witness: with a store persisting `lang = "en"`, `applyLanguage` is a
no-op on a concrete state. -/
theorem applyLanguage_non_jp_noop_witness :
    applyLanguage exState ⟨true, none, some "en"⟩ = exState ∧
    (initSiteControls exState ⟨true, none, some "en"⟩).events = exState.events := by
  have h := applyLanguage_non_jp_noop exState ⟨true, none, some "en"⟩ (by simp)
  exact ⟨h.1, h.2.2⟩

/-- `toggleLanguageUI` renders under the flipped language. -/
theorem toggleLanguageUI_elements (st : SiteState) :
    (toggleLanguageUI st).elements =
      st.elements.map (translateEl (if st.currentLang = "en" then "jp" else "en")) := rfl

theorem toggleLanguageUI_currentLang (st : SiteState) :
    (toggleLanguageUI st).currentLang = (if st.currentLang = "en" then "jp" else "en") := rfl

/-- In a rendered state, a tagged element with a truthy entry for the
current language displays that entry. -/
theorem rendered_spec {st : SiteState} (h : rendered st = true) :
    ∀ el ∈ st.elements, ∀ k v, el.dataI18n = some k →
      truthyVal k st.currentLang = some v → el.innerHTML = v := by
  intro el hel k v hk hv
  have h2 := List.all_eq_true.mp h el hel
  simp only [hk, hv] at h2
  exact eq_of_beq h2

/-- One element round-trips under render in one locale then the other, as
soon as it currently displays its truthy entry for the final locale (the
compiled table has no empty strings, so no truthiness asymmetry arises). -/
theorem translateEl_roundTrip (el : Element) (l1 l2 : String)
    (h12 : (l1 = "en" ∧ l2 = "jp") ∨ (l1 = "jp" ∧ l2 = "en"))
    (hs : ∀ k v, el.dataI18n = some k → truthyVal k l1 = some v → el.innerHTML = v) :
    translateEl l1 (translateEl l2 el) = el := by
  cases el with
  | mk d html =>
    cases d with
    | none => rfl
    | some k =>
      cases hl : lookupTranslation k with
      | none =>
        have hn1 : truthyVal k l1 = none := truthyVal_of_lookup_none l1 hl
        have hn2 : truthyVal k l2 = none := truthyVal_of_lookup_none l2 hl
        simp [translateEl, hn1, hn2]
      | some e =>
        rcases h12 with ⟨rfl, rfl⟩ | ⟨rfl, rfl⟩
        · have t1 : truthyVal k "en" = some e.en := truthyVal_en hl
          have t2 : truthyVal k "jp" = some e.jp := truthyVal_jp hl
          have hv : html = e.en := hs k e.en rfl t1
          simp [translateEl, t1, t2, hv]
        · have t1 : truthyVal k "jp" = some e.jp := truthyVal_jp hl
          have t2 : truthyVal k "en" = some e.en := truthyVal_en hl
          have hv : html = e.jp := hs k e.jp rfl t1
          simp [translateEl, t1, t2, hv]

/-- Rendering in one locale and then in the other is the identity on an
element list that displays its entries for the final locale. -/
theorem doubleRender (els : List Element) (l1 l2 : String)
    (h12 : (l1 = "en" ∧ l2 = "jp") ∨ (l1 = "jp" ∧ l2 = "en"))
    (hs : ∀ el ∈ els, ∀ k v, el.dataI18n = some k → truthyVal k l1 = some v →
      el.innerHTML = v) :
    (els.map (translateEl l2)).map (translateEl l1) = els := by
  rw [List.map_map]
  have h : ∀ el ∈ els, (translateEl l1 ∘ translateEl l2) el = id el := fun el hel =>
    translateEl_roundTrip el l1 l2 h12 (hs el hel)
  rw [List.map_congr_left h, List.map_id]

/-- C2 amended: toggling the language twice in succession (table unchanged —
it is a compiled constant) returns every tagged element to its pre-toggle
content, and the language to its pre-toggle value, PROVIDED the pre-toggle
state is a rendered one: the current language is one of the two locales and
every tagged element with a table entry for it currently displays that entry
(any state produced by `applyTranslations` qualifies).  Without that proviso
the claim is false, see the counterexample. -/
theorem toggleLanguage_roundTrip (st : SiteState) (s : Store)
    (hl : st.currentLang = "en" ∨ st.currentLang = "jp")
    (hr : rendered st = true) :
    (runOps (st, s) [Op.tLang, Op.tLang]).1.elements = st.elements ∧
    (runOps (st, s) [Op.tLang, Op.tLang]).1.currentLang = st.currentLang := by
  have hrun : (runOps (st, s) [Op.tLang, Op.tLang]).1 =
      toggleLanguageUI (toggleLanguageUI st) := by
    simp [runOps, runOp, toggleLanguage]
  rw [hrun]
  have hs := rendered_spec hr
  rcases hl with h | h
  · rw [h] at hs
    have c1 : (toggleLanguageUI st).currentLang = "jp" := by
      rw [toggleLanguageUI_currentLang, h, if_pos rfl]
    have e1 : (toggleLanguageUI st).elements = st.elements.map (translateEl "jp") := by
      rw [toggleLanguageUI_elements, h, if_pos rfl]
    have e2 : (toggleLanguageUI (toggleLanguageUI st)).elements =
        ((toggleLanguageUI st).elements).map (translateEl "en") := by
      rw [toggleLanguageUI_elements, c1, if_neg (by decide)]
    constructor
    · rw [e2, e1, doubleRender st.elements "en" "jp" (Or.inl ⟨rfl, rfl⟩) hs]
    · rw [toggleLanguageUI_currentLang, c1, if_neg (by decide), h]
  · rw [h] at hs
    have c1 : (toggleLanguageUI st).currentLang = "en" := by
      rw [toggleLanguageUI_currentLang, h, if_neg (by decide)]
    have e1 : (toggleLanguageUI st).elements = st.elements.map (translateEl "en") := by
      rw [toggleLanguageUI_elements, h, if_neg (by decide)]
    have e2 : (toggleLanguageUI (toggleLanguageUI st)).elements =
        ((toggleLanguageUI st).elements).map (translateEl "jp") := by
      rw [toggleLanguageUI_elements, c1, if_pos rfl]
    constructor
    · rw [e2, e1, doubleRender st.elements "jp" "en" (Or.inr ⟨rfl, rfl⟩) hs]
    · rw [toggleLanguageUI_currentLang, c1, if_pos rfl, h]

/-- C2 witness: a concrete rendered English page round-trips. -/
theorem toggleLanguage_roundTrip_witness :
    (runOps (exState, exStore) [Op.tLang, Op.tLang]).1.elements = exState.elements ∧
    (runOps (exState, exStore) [Op.tLang, Op.tLang]).1.currentLang = exState.currentLang :=
  toggleLanguage_roundTrip exState exStore (Or.inl rfl) (by decide)

/-- A page whose tagged element carries authored content different from its
English table string. -/
def exStaleState : SiteState :=
  { isDarkMode := false, currentLang := "en", bodyDark := false,
    darkBtn := some "☾", langBtn := some "JP",
    elements := [⟨some "nav-portfolio", "authored original"⟩], events := [] }

/-- C2 counterexample: as the claim is stated — for every tagged element,
from any state — it is false: starting from authored content
`"authored original"` under key `nav-portfolio`, two `toggleLanguage()` calls
leave the element showing the English table string `"Portfolio"`, not its
pre-toggle value. -/
theorem toggleLanguage_roundTrip_cex :
    (runOps (exStaleState, exStore) [Op.tLang, Op.tLang]).1.elements ≠
      exStaleState.elements := by
  decide

/-- The language code `toggleLanguage` flips to is always one of the two
locale codes, whatever the current value. -/
theorem flip_lang (l : String) :
    (if l = "en" then "jp" else "en") = "jp" ∨ (if l = "en" then "jp" else "en") = "en" := by
  by_cases h : l = "en"
  · left; rw [if_pos h]
  · right; rw [if_neg h]

/-- One operation preserves the range the code maintains for the two
persisted keys. -/
theorem runOp_storeRange (p : SiteState × Store) (op : Op) (h : storeRange p.2) :
    storeRange (runOp p op).2 := by
  cases op with
  | tDark =>
    cases hok : p.2.ok with
    | false =>
      have hq : runOp p Op.tDark = (toggleDarkModeUI p.1, p.2) := by
        simp [runOp, toggleDarkMode, storeSetItem, hok]
      rw [hq]; exact h
    | true =>
      have hq : runOp p Op.tDark = (toggleDarkModeUI p.1,
          { p.2 with darkMode := some (if (toggleDarkModeUI p.1).isDarkMode then "1" else "0") }) := by
        simp [runOp, toggleDarkMode, storeSetItem, hok]
      rw [hq]
      refine ⟨?_, h.2⟩
      by_cases hd : (toggleDarkModeUI p.1).isDarkMode
      · left; rw [if_pos hd]
      · right; left; rw [if_neg hd]
  | tLang =>
    cases hok : p.2.ok with
    | false =>
      have hq : runOp p Op.tLang = (toggleLanguageUI p.1, p.2) := by
        simp [runOp, toggleLanguage, storeSetItem, hok]
      rw [hq]; exact h
    | true =>
      have hq : runOp p Op.tLang = (toggleLanguageUI p.1,
          { p.2 with lang := some (toggleLanguageUI p.1).currentLang }) := by
        simp [runOp, toggleLanguage, storeSetItem, hok]
      rw [hq]
      refine ⟨h.1, ?_⟩
      rcases flip_lang p.1.currentLang with hf | hf
      · left; rw [toggleLanguageUI_currentLang, hf]
      · right; left; rw [toggleLanguageUI_currentLang, hf]
  | aDark => exact h
  | aLang => exact h

/-- C4 amended: after any sequence of operations from a store within range,
the persisted `darkMode` key is `"1"`, `"0"` or absent (the code writes
`"0"` for off rather than removing the key), and the `lang` key is `"jp"`,
`"en"` or absent (the code writes `"en"` when toggling back); no other value
is ever written for these keys. -/
theorem storeRange_preserved (ops : List Op) (st : SiteState) (s : Store)
    (h : storeRange s) : storeRange (runOps (st, s) ops).2 := by
  induction ops generalizing st s with
  | nil => exact h
  | cons op rest ih =>
    have hstep := runOp_storeRange (st, s) op h
    have hr : runOps (st, s) (op :: rest) = runOps (runOp (st, s) op) rest := rfl
    rw [hr]
    rcases hq : runOp (st, s) op with ⟨st2, s2⟩
    rw [hq] at hstep
    exact ih st2 s2 hstep

/-- C4 witness: a concrete run from the fresh store stays within range. -/
theorem storeRange_preserved_witness :
    storeRange (runOps (exState, exStore) [Op.tDark, Op.tLang, Op.tDark]).2 :=
  storeRange_preserved [Op.tDark, Op.tLang, Op.tDark] exState exStore
    ⟨Or.inr (Or.inr rfl), Or.inr (Or.inr rfl)⟩

/-- C4 counterexample: the claimed range is violated: from a fresh working
store, toggling dark mode twice persists `darkMode = "0"` — neither `"1"`
nor absent (and a language toggle pair likewise persists `lang = "en"`). -/
theorem specClaimedStoreRange_cex :
    ¬ specClaimedStoreRange (runOps (exState, exStore) [Op.tDark, Op.tDark]).2 := by
  unfold specClaimedStoreRange
  decide

/-- C5: with `darkMode = "1"` and `lang = "jp"` persisted in a working store
and both buttons present, initialization applies the dark marker, turns the
flag on, shows the revert glyph `"☀"` on the theme button and the revert
code `"EN"` on the language button, sets the language to `jp`, and every
tagged element whose key is in the table shows the Japanese string. -/
theorem initSiteControls_saved_jp_dark (st : SiteState) (s : Store)
    (hok : s.ok = true) (hd : s.darkMode = some "1") (hl : s.lang = some "jp")
    (hdb : st.darkBtn.isSome = true) (hlb : st.langBtn.isSome = true) :
    (initSiteControls st s).isDarkMode = true ∧
    (initSiteControls st s).bodyDark = true ∧
    (initSiteControls st s).darkBtn = some "☀" ∧
    (initSiteControls st s).langBtn = some "EN" ∧
    (initSiteControls st s).currentLang = "jp" ∧
    (∀ el ∈ (initSiteControls st s).elements, ∀ k e, el.dataI18n = some k →
      lookupTranslation k = some e → el.innerHTML = e.jp) := by
  obtain ⟨bd, hbd⟩ := Option.isSome_iff_exists.mp hdb
  obtain ⟨lb, hlb2⟩ := Option.isSome_iff_exists.mp hlb
  have h1 : applyDarkMode st s =
      { st with isDarkMode := true, bodyDark := true, darkBtn := some "☀" } := by
    unfold applyDarkMode storeGetItem
    simp [hok, hd, hbd]
  have h2 : initSiteControls st s =
      applyTranslations { st with isDarkMode := true, bodyDark := true, darkBtn := some "☀", currentLang := "jp" } := by
    unfold initSiteControls
    rw [h1]
    unfold applyLanguage storeGetItem
    simp [hok, hl]
  rw [h2]
  refine ⟨rfl, rfl, rfl, ?_, rfl, ?_⟩
  · simp [applyTranslations, hlb2]
  · intro el hel k e hk he
    simp only [applyTranslations] at hel
    obtain ⟨el0, hel0, rfl⟩ := List.mem_map.mp hel
    have hk0 : el0.dataI18n = some k := by
      rw [← translateEl_dataI18n "jp" el0]; exact hk
    cases el0 with
    | mk d html =>
      obtain rfl : d = some k := by simpa using hk0
      simp [translateEl, truthyVal_jp he]

/-- The store a startup with both preferences persisted reads from. -/
def exJpDarkStore : Store := ⟨true, some "1", some "jp"⟩

/-- C5 witness: instantiated on the concrete page and store. -/
theorem initSiteControls_saved_jp_dark_witness :
    (initSiteControls exState exJpDarkStore).isDarkMode = true ∧
    (initSiteControls exState exJpDarkStore).bodyDark = true ∧
    (initSiteControls exState exJpDarkStore).darkBtn = some "☀" ∧
    (initSiteControls exState exJpDarkStore).langBtn = some "EN" ∧
    (initSiteControls exState exJpDarkStore).currentLang = "jp" := by
  have h := initSiteControls_saved_jp_dark exState exJpDarkStore rfl rfl rfl rfl rfl
  exact ⟨h.1, h.2.1, h.2.2.1, h.2.2.2.1, h.2.2.2.2.1⟩

end SiteModel
